import Mathlib

/-!
Verification of the Neon Arena simulation core: a shallow embedding of the
round/phase orchestrator, the weapon system, the combat resolution engine and
the enemy AI state machine, translated from the JavaScript sources
(`src/config/logger-config.js` tactical build, `src/utils/phase-ui.js`,
`src/config/weapons.js`, `src/config/levels.js`, `src/entities/droid.js`).

Modelling conventions:
- JavaScript numbers are modelled as `ℚ` (all constants in the sources are
  exact decimal literals, written here as exact fractions, e.g. `0.15 = 3/20`);
  integer-valued quantities (ammo, health after scaling, counts) use `ℤ`.
- `Math.floor` is `Int.floor`, `Math.ceil` is `Int.ceil`,
  `Math.round x` is `⌊x + 1/2⌋` (JavaScript rounds half toward +∞).
- Euclidean-distance comparisons `a.distanceTo(b) < r` are modelled as the
  equivalent squared comparison `distSq a b < r * r` to stay in `ℚ`.
- Geometry oracles (raycast results, random reposition targets) that the code
  obtains from the rendering collaborator are passed in as explicit tick
  inputs (`hitWall`, `blockedChase`, `repositionDone`).
- DOM/HUD side effects are dropped; event callbacks (`onEnemyKilled`,
  `onPlayerHit`, the transition log of `setAIState`) are modelled as data
  returned from the corresponding functions.
-/

/-- The weapon identifiers of `src/config/weapons.js`. -/
inductive WeaponType where
  | rifle
  | shotgun
  | sniper
deriving DecidableEq, Repr

/-- A weapon profile, from `src/config/weapons.js` (damage, fire-rate interval
in milliseconds, range, magazine capacity, starting ammo, spread, optional
pellet count). -/
structure Weapon where
  damage : ℚ
  fireRate : ℚ
  range : ℚ
  maxAmmo : ℤ
  ammo : ℤ
  spread : ℚ
  pellets : Option ℕ
deriving DecidableEq, Repr

/-- The `weapons` configuration object of `src/config/weapons.js`. -/
def weapons : WeaponType → Weapon
  | WeaponType.rifle => ⟨20, 150, 100, 30, 30, 1/20, none⟩
  | WeaponType.shotgun => ⟨10, 800, 30, 8, 8, 1/5, some 8⟩
  | WeaponType.sniper => ⟨80, 1200, 200, 5, 5, 1/100, none⟩

/-- Number of projectiles created by one activation of `fireWeapon`
(`src/core/game.js`): the shotgun branch runs when
`weaponType === 'shotgun' && weapon.pellets` is truthy and creates one bullet
per pellet; every other weapon creates a single bullet. -/
def bulletsPerShot (wt : WeaponType) : ℤ :=
  match wt, (weapons wt).pellets with
  | WeaponType.shotgun, some p => if p = 0 then 1 else (p : ℤ)
  | _, _ => 1

/-- Result of the core `fireWeapon` of `src/core/game.js`: the returned ammo
and last-fire timestamp, plus the number of bullets pushed onto the bullet
array during the call. -/
structure FireResult where
  ammo : ℤ
  lastFireTime : ℚ
  bulletsFired : ℤ
deriving DecidableEq, Repr

/-- The core `fireWeapon` of `src/core/game.js` (imported as
`fireWeaponLogic` by the orchestrator): rejects when out of ammo or inside the
fire-rate interval, returning ammo and last-fire time unchanged; otherwise
consumes one ammo unit, stamps the current time and creates
`bulletsPerShot` projectiles. `now` models `Date.now()`. -/
def fireWeaponLogic (wt : WeaponType) (ammo : ℤ) (lastFireTime now : ℚ) :
    FireResult :=
  if ammo ≤ 0 ∨ now - lastFireTime < (weapons wt).fireRate then
    ⟨ammo, lastFireTime, 0⟩
  else
    ⟨ammo - 1, now, bulletsPerShot wt⟩

/-- `reloadWeapon` of `src/core/game.js`: a no-op when the current ammo
already equals the magazine capacity, otherwise sets ammo to capacity. -/
def reloadWeapon (wt : WeaponType) (currentAmmo : ℤ) : ℤ :=
  if currentAmmo = (weapons wt).maxAmmo then currentAmmo
  else (weapons wt).maxAmmo

/-- The phase enumeration `PHASES` of `src/main.js` (tactical build). -/
inductive Phase where
  | IDLE
  | PREP_COUNTDOWN
  | COMBAT
  | INTERMISSION
  | ROUND_END
  | ARENA_GATE_OPEN
  | ARENA_SWAP
deriving DecidableEq, Repr

/-- The per-weapon persisted ammo map `gameState.weaponAmmo`. -/
structure WeaponAmmo where
  rifle : ℤ
  shotgun : ℤ
  sniper : ℤ
deriving DecidableEq, Repr

/-- Read `weaponAmmo[wt]`. -/
def getWAmmo (w : WeaponAmmo) : WeaponType → ℤ
  | WeaponType.rifle => w.rifle
  | WeaponType.shotgun => w.shotgun
  | WeaponType.sniper => w.sniper

/-- Write `weaponAmmo[wt] = v`. -/
def setWAmmo (w : WeaponAmmo) : WeaponType → ℤ → WeaponAmmo
  | WeaponType.rifle, v => { w with rifle := v }
  | WeaponType.shotgun, v => { w with shotgun := v }
  | WeaponType.sniper, v => { w with sniper := v }

/-- The `gameState.unlockedWeapons` set. -/
structure Unlocked where
  rifle : Bool
  shotgun : Bool
  sniper : Bool
deriving DecidableEq, Repr

/-- Membership test on the unlocked-weapons set. -/
def isUnlocked (u : Unlocked) : WeaponType → Bool
  | WeaponType.rifle => u.rifle
  | WeaponType.shotgun => u.shotgun
  | WeaponType.sniper => u.sniper

/-- Add a weapon to the unlocked-weapons set. -/
def addUnlocked (u : Unlocked) : WeaponType → Unlocked
  | WeaponType.rifle => { u with rifle := true }
  | WeaponType.shotgun => { u with shotgun := true }
  | WeaponType.sniper => { u with sniper := true }

/-- The phase- and weapon-relevant fields of the mutable `gameState` object of
`src/main.js` (tactical build). Rendering handles, positions, pickups and
telemetry are presentation-side and not modelled; `enemies` and `bullets`
model the lengths of the corresponding entity arrays. -/
structure GState where
  gameStarted : Bool
  phase : Phase
  phaseTimer : ℚ
  countdownValue : Option ℤ
  combatLive : Bool
  enemies : ℤ
  round : ℤ
  roundInFloor : ℤ
  floor : ℤ
  weaponType : WeaponType
  ammo : ℤ
  maxAmmo : ℤ
  weaponAmmo : WeaponAmmo
  unlocked : Unlocked
  lastFireTime : ℚ
  bullets : ℤ
deriving DecidableEq, Repr

/-- The initial `gameState` literal of `src/main.js`. -/
def initState : GState where
  gameStarted := false
  phase := Phase.IDLE
  phaseTimer := 0
  countdownValue := none
  combatLive := false
  enemies := 0
  round := 1
  roundInFloor := 1
  floor := 1
  weaponType := WeaponType.rifle
  ammo := 0
  maxAmmo := 0
  weaponAmmo := ⟨(weapons WeaponType.rifle).maxAmmo,
    (weapons WeaponType.shotgun).maxAmmo, (weapons WeaponType.sniper).maxAmmo⟩
  unlocked := ⟨true, false, false⟩
  lastFireTime := 0
  bullets := 0

/-- `getEnemiesForRound` of `src/main.js`:
`5 + Math.floor(globalRound * 1.5) + Math.floor((floor - 1) * 0.8)`. -/
def getEnemiesForRound (globalRound floor : ℤ) : ℤ :=
  5 + ⌊(globalRound : ℚ) * (3/2)⌋ + ⌊((floor : ℚ) - 1) * (4/5)⌋

/-- `roundsPerArena` from `getLevelConfig` in `src/config/levels.js`: every
level template uses `BASE_ROUNDS_PER_ARENA = 3`. -/
def roundsPerArena : ℤ := 3

/-- The per-floor enemy health scale from `getLevelConfig` in
`src/config/levels.js`: `1 + (Math.max(1, floor) - 1) * 0.15`. -/
def healthScale (floor : ℤ) : ℚ :=
  1 + ((max 1 floor : ℤ) - 1 : ℤ) * (3/20)

/-- JavaScript `Math.round`: rounds to the nearest integer, halves toward
positive infinity. -/
def jsRound (x : ℚ) : ℤ := ⌊x + 1/2⌋

/-- The health assigned by `spawnEnemies` in `src/main.js` to an enemy whose
pre-scaling health is `h` on floor `f`:
`Math.max(25, Math.round(enemy.health * healthScale))`, in exact rational
arithmetic. The droid factory (`src/entities/droid.js`) always sets the
pre-scaling health to 100, for which `h * healthScale f` is an exact integer
and the rational model agrees with the source's IEEE-double evaluation
(rounding an integer plus double noise recovers the integer); the theorems
below therefore use this function only at base 100, plus the base-independent
minimum of 25. At other bases the exact-rational product can fall on a .5
tie that double arithmetic does not reproduce. -/
def scaledSpawnHealth (h : ℚ) (f : ℤ) : ℤ :=
  max 25 (jsRound (h * healthScale f))

/-- `enterPrepCountdown` of `src/main.js` (state fields only):
`setPhase(PREP_COUNTDOWN, 3)`, `combatLive = false`, `countdownValue = 3`. -/
def enterPrepCountdown (s : GState) : GState :=
  { s with
    phase := Phase.PREP_COUNTDOWN
    phaseTimer := 3
    combatLive := false
    countdownValue := some 3 }

/-- `enterCombatActivation` of `src/main.js`:
`setPhase(COMBAT, COMBAT_ACTIVATION_DELAY)` with
`COMBAT_ACTIVATION_DELAY = 1`, `combatLive = false`. -/
def enterCombatActivation (s : GState) : GState :=
  { s with phase := Phase.COMBAT, phaseTimer := 1, combatLive := false }

/-- `activateCombat` of `src/main.js`: guarded no-op when combat is already
live, otherwise sets `combatLive = true` and `phaseTimer = 0`. -/
def activateCombat (s : GState) : GState :=
  if s.combatLive then s
  else { s with combatLive := true, phaseTimer := 0 }

/-- `enterIntermission` of `src/main.js`:
`setPhase(INTERMISSION, 8)`, `combatLive = false` (enemy bullets cleared and
pickups spawned are presentation-side). -/
def enterIntermission (s : GState) : GState :=
  { s with phase := Phase.INTERMISSION, phaseTimer := 8, combatLive := false }

/-- `enterRoundEnd` of `src/main.js`: `setPhase(ROUND_END, 1.2)`,
`combatLive = false`. -/
def enterRoundEnd (s : GState) : GState :=
  { s with phase := Phase.ROUND_END, phaseTimer := 6/5, combatLive := false }

/-- `enterArenaGateOpen` of `src/main.js`: `setPhase(ARENA_GATE_OPEN, 1.4)`. -/
def enterArenaGateOpen (s : GState) : GState :=
  { s with phase := Phase.ARENA_GATE_OPEN, phaseTimer := 7/5 }

/-- `enterArenaSwap` of `src/main.js`: `setPhase(ARENA_SWAP, 1.0)`. -/
def enterArenaSwap (s : GState) : GState :=
  { s with phase := Phase.ARENA_SWAP, phaseTimer := 1 }

/-- `startNextRound` of `src/main.js`: increments the global round and the
round-within-floor, respawns `getEnemiesForRound` enemies and re-enters the
prep countdown. -/
def startNextRound (s : GState) : GState :=
  enterPrepCountdown
    { s with
      round := s.round + 1
      roundInFloor := s.roundInFloor + 1
      enemies := getEnemiesForRound (s.round + 1) s.floor }

/-- `advanceToNextFloor` of `src/main.js`: increments floor and global round,
resets the round-within-floor, clears bullets, respawns enemies for the new
floor and re-enters the prep countdown. -/
def advanceToNextFloor (s : GState) : GState :=
  enterPrepCountdown
    { s with
      floor := s.floor + 1
      round := s.round + 1
      roundInFloor := 1
      bullets := 0
      enemies := getEnemiesForRound (s.round + 1) (s.floor + 1) }

/-- The prep-countdown tick body of `updatePhase` in `src/main.js` before the
expiry check: decrement the timer and refresh the countdown display value
(`Math.ceil(Math.max(0, phaseTimer))`) while the timer is positive. -/
def prepTickState (delta : ℚ) (s : GState) : GState :=
  let t := s.phaseTimer - delta
  let next : ℤ := ⌈max 0 t⌉
  let cd := if 0 < t ∧ some next ≠ s.countdownValue then some next
    else s.countdownValue
  { s with phaseTimer := t, countdownValue := cd }

/-- `updatePhase` of `src/main.js`: the per-tick phase-machine step, fed the
elapsed `delta` in seconds. -/
def updatePhase (delta : ℚ) (s : GState) : GState :=
  if s.phase = Phase.PREP_COUNTDOWN then
    let s1 := prepTickState delta s
    if s1.phaseTimer ≤ 0 then enterCombatActivation s1 else s1
  else if s.phase = Phase.COMBAT then
    if s.combatLive = false then
      let s1 := { s with phaseTimer := s.phaseTimer - delta }
      if s1.phaseTimer ≤ 0 then activateCombat s1 else s1
    else if s.enemies = 0 then
      if roundsPerArena ≤ s.roundInFloor then enterRoundEnd s
      else enterIntermission s
    else s
  else if s.phase = Phase.INTERMISSION then
    let s1 := { s with phaseTimer := s.phaseTimer - delta }
    if s1.phaseTimer ≤ 0 then startNextRound s1 else s1
  else if s.phase = Phase.ROUND_END then
    let s1 := { s with phaseTimer := s.phaseTimer - delta }
    if s1.phaseTimer ≤ 0 then enterArenaGateOpen s1 else s1
  else if s.phase = Phase.ARENA_GATE_OPEN then
    let s1 := { s with phaseTimer := s.phaseTimer - delta }
    if s1.phaseTimer ≤ 0 then enterArenaSwap s1 else s1
  else if s.phase = Phase.ARENA_SWAP then
    let s1 := { s with phaseTimer := s.phaseTimer - delta }
    if s1.phaseTimer ≤ 0 then advanceToNextFloor s1 else s1
  else s

/-- `startGame` of `src/main.js` (state fields only): resets the session —
weapon forced back to the starting set (`rifle` only), counters and ammo
restored, enemies spawned for round 1 — then enters the prep countdown. -/
def startGame (s : GState) : GState :=
  let wt := if s.weaponType = WeaponType.rifle then s.weaponType
    else WeaponType.rifle
  let fullAmmo : WeaponAmmo := ⟨(weapons WeaponType.rifle).maxAmmo,
    (weapons WeaponType.shotgun).maxAmmo, (weapons WeaponType.sniper).maxAmmo⟩
  enterPrepCountdown
    { s with
      gameStarted := true
      floor := 1
      round := 1
      roundInFloor := 1
      weaponType := wt
      unlocked := ⟨true, false, false⟩
      weaponAmmo := fullAmmo
      maxAmmo := (weapons wt).maxAmmo
      ammo := getWAmmo fullAmmo wt
      lastFireTime := 0
      bullets := 0
      enemies := getEnemiesForRound 1 1 }

/-- The orchestrator-level `fireWeapon` of `src/main.js`: a no-op unless the
game has started, the phase is COMBAT and combat is live; otherwise applies
the core fire logic, storing the returned ammo and last-fire time and
mirroring the ammo into the per-weapon map. -/
def fireCommand (now : ℚ) (s : GState) : GState :=
  if s.gameStarted = false ∨ s.phase ≠ Phase.COMBAT ∨ s.combatLive = false
  then s
  else
    let r := fireWeaponLogic s.weaponType s.ammo s.lastFireTime now
    { s with
      ammo := r.ammo
      lastFireTime := r.lastFireTime
      weaponAmmo := setWAmmo s.weaponAmmo s.weaponType r.ammo
      bullets := s.bullets + r.bulletsFired }

/-- `reloadCurrentWeapon` of `src/main.js`: applies the core reload and
mirrors the result into the per-weapon ammo map. The keyboard handler gates
it on `gameStarted`. -/
def reloadCommand (s : GState) : GState :=
  if s.gameStarted = false then s
  else
    let a := reloadWeapon s.weaponType s.ammo
    { s with ammo := a, weaponAmmo := setWAmmo s.weaponAmmo s.weaponType a }

/-- `attemptWeaponSwitch` of `src/main.js`: rejected when the weapon is
locked, a no-op when it is already selected, otherwise switches and restores
that weapon's persisted ammo. The keyboard handler gates it on
`gameStarted`. -/
def attemptWeaponSwitch (wt : WeaponType) (s : GState) : GState :=
  if s.gameStarted = false then s
  else if isUnlocked s.unlocked wt = false then s
  else if s.weaponType = wt then s
  else
    { s with
      weaponType := wt
      maxAmmo := (weapons wt).maxAmmo
      ammo := getWAmmo s.weaponAmmo wt }

/-- The weapon-unlock effect of `applyPickup` in `src/main.js` (health
pickups do not touch ammo and are not modelled). -/
def applyUnlockPickup (wt : WeaponType) (s : GState) : GState :=
  { s with unlocked := addUnlocked s.unlocked wt }

/-- Run a list of phase ticks (`updatePhase` per frame delta). -/
def runTicks : List ℚ → GState → GState
  | [], s => s
  | d :: ds, s => runTicks ds (updatePhase d s)

/-- The enemy-count formula exactly as the specification words it:
`baseline(5) + floor(globalRound × 1.5) + floor((floorIndex − 1) × 0.8)`. -/
def enemyCountSpec (globalRound floorIndex : ℤ) : ℤ :=
  5 + ⌊(globalRound : ℚ) * (1.5 : ℚ)⌋ + ⌊((floorIndex : ℚ) - 1) * (0.8 : ℚ)⌋

/-- A discrete player-session input: a frame tick, the fire command, the
reload key, a weapon-switch key, or collecting a weapon-unlock pickup. -/
inductive GAction where
  | tick (delta : ℚ)
  | fire (now : ℚ)
  | reload
  | switchWeapon (wt : WeaponType)
  | unlockPickup (wt : WeaponType)
deriving DecidableEq, Repr

/-- Dispatch one session input to the corresponding handler of
`src/main.js`. -/
def applyAction (s : GState) : GAction → GState
  | GAction.tick d => updatePhase d s
  | GAction.fire now => fireCommand now s
  | GAction.reload => reloadCommand s
  | GAction.switchWeapon wt => attemptWeaponSwitch wt s
  | GAction.unlockPickup wt => applyUnlockPickup wt s

/-- Run a list of session inputs in order. -/
def runActions : List GAction → GState → GState
  | [], s => s
  | a :: rest, s => runActions rest (applyAction s a)

/-- The ammo invariant: the active weapon's ammo and every entry of the
persisted per-weapon ammo map lie between 0 and the weapon's magazine
capacity. -/
def ammoInvariant (s : GState) : Prop :=
  0 ≤ s.ammo ∧ s.ammo ≤ (weapons s.weaponType).maxAmmo ∧
  0 ≤ s.weaponAmmo.rifle ∧
  s.weaponAmmo.rifle ≤ (weapons WeaponType.rifle).maxAmmo ∧
  0 ≤ s.weaponAmmo.shotgun ∧
  s.weaponAmmo.shotgun ≤ (weapons WeaponType.shotgun).maxAmmo ∧
  0 ≤ s.weaponAmmo.sniper ∧
  s.weaponAmmo.sniper ≤ (weapons WeaponType.sniper).maxAmmo

/-- A 3-component vector over `ℚ`, standing in for `THREE.Vector3`. -/
structure Vec3 where
  x : ℚ
  y : ℚ
  z : ℚ
deriving DecidableEq, Repr

/-- Vector addition. -/
def vadd (a b : Vec3) : Vec3 := ⟨a.x + b.x, a.y + b.y, a.z + b.z⟩

/-- Scalar multiplication. -/
def vscale (k : ℚ) (a : Vec3) : Vec3 := ⟨k * a.x, k * a.y, k * a.z⟩

/-- Squared Euclidean distance. -/
def distSq (a b : Vec3) : ℚ :=
  (a.x - b.x) * (a.x - b.x) + (a.y - b.y) * (a.y - b.y) +
    (a.z - b.z) * (a.z - b.z)

/-- `a.distanceTo(b) < r` for `r ≥ 0`, expressed with squared distances. -/
def withinDist (a b : Vec3) (r : ℚ) : Bool := distSq a b < r * r

/-- A projectile record as pushed by `createBullet` / `enemyFire`
(`src/core/game.js`, `src/core/update.js`): position, unit direction, speed,
range, accumulated traveled distance and damage (the `mesh` handle is
presentation-side). -/
structure PBullet where
  pos : Vec3
  dir : Vec3
  speed : ℚ
  range : ℚ
  distance : ℚ
  damage : ℚ
deriving DecidableEq, Repr

/-- A living enemy as seen by the bullet pass: its ground position and
current health. -/
structure Enemy where
  pos : Vec3
  health : ℚ
deriving DecidableEq, Repr

/-- An enemy's hit-center: its position raised by the 1.0 torso-height
offset, as in the player-bullet loop of `updateBullets`
(`src/core/update.js`). -/
def hitCenter (e : Enemy) : Vec3 := ⟨e.pos.x, e.pos.y + 1, e.pos.z⟩

/-- Advance a bullet one tick: position moves by `direction × speed` and the
traveled distance accumulates by `speed` (steps 1 of `updateBullets`). -/
def stepBullet (b : PBullet) : PBullet :=
  { b with
    pos := vadd b.pos (vscale b.speed b.dir)
    distance := b.distance + b.speed }

/-- Result of the enemy-hit scan for one player bullet: the surviving enemy
list, whether a hit was registered, and how many kill events fired. -/
structure ScanResult where
  enemies : List Enemy
  hit : Bool
  kills : ℕ
deriving DecidableEq, Repr

/-- The enemy-hit loop of `updateBullets` (`src/core/update.js`) for one
player bullet: walk the enemy collection in order; the first enemy whose
hit-center is within 1.2 units takes the bullet's damage and the loop breaks;
if its resulting health is ≤ 0 it is spliced out and a kill event fires. -/
def scanEnemies (b : PBullet) : List Enemy → ScanResult
  | [] => ⟨[], false, 0⟩
  | e :: rest =>
    if withinDist b.pos (hitCenter e) (6/5) then
      if e.health - b.damage ≤ 0 then ⟨rest, true, 1⟩
      else ⟨{ e with health := e.health - b.damage } :: rest, true, 0⟩
    else
      let r := scanEnemies b rest
      ⟨e :: r.enemies, r.hit, r.kills⟩

/-- One tick of the player-bullet update of `updateBullets`
(`src/core/update.js`) for a single bullet: advance, scan enemies, and remove
the bullet (`none`) exactly when its traveled distance exceeds its range, an
enemy hit was registered, or a wall impact occurred this tick. The wall
raycast result is supplied by the geometry collaborator as `hitWall`. -/
def updateOneBullet (b : PBullet) (enemies : List Enemy) (hitWall : Bool) :
    Option PBullet × ScanResult :=
  let b1 := stepBullet b
  let r := scanEnemies b1 enemies
  if b1.distance > b1.range ∨ r.hit = true ∨ hitWall = true then (none, r)
  else (some b1, r)

/-- One tick of the enemy-bullet update of `updateBullets`
(`src/core/update.js`) for a single bullet: advance; if within 1.0 unit of
the player, report the hit and remove; otherwise remove on range exceeded or
wall impact. Returns the surviving bullet and whether the player was hit. -/
def updateOneEnemyBullet (b : PBullet) (playerPos : Vec3) (hitWall : Bool) :
    Option PBullet × Bool :=
  let b1 := stepBullet b
  if withinDist b1.pos playerPos 1 then (none, true)
  else if b1.distance > b1.range ∨ hitWall = true then (none, false)
  else (some b1, false)

/-- The projectile of the C2 flight scenario: fired by `createBullet` with
the rifle's range 100, speed 1.0 and traveled distance 0. -/
def rifleFlightBullet : PBullet :=
  ⟨⟨0, 0, 0⟩, ⟨0, 0, -1⟩, 1, 100, 0, (weapons WeaponType.rifle).damage⟩

/-- The C2 flight scenario after `n` ticks: iterate the single-bullet update
with no enemies in radius and no wall impacts. -/
def flightAfter (n : ℕ) : Option PBullet :=
  Nat.iterate (fun ob => ob.bind fun b => (updateOneBullet b [] false).1) n
    (some rifleFlightBullet)

/-- The bullet of the C8 witness scenario (damage 20, at the origin). -/
def c8Bullet : PBullet := ⟨⟨0, 0, 0⟩, ⟨0, 0, -1⟩, 1, 100, 0, 20⟩

/-- An enemy far out of the hit radius, scanned first. -/
def c8FarEnemy : Enemy := ⟨⟨10, 0, 0⟩, 50⟩

/-- An enemy whose hit-center coincides with the bullet, with 15 health. -/
def c8NearEnemy : Enemy := ⟨⟨0, -1, 0⟩, 15⟩

/-- The AI states of the enemy finite state machine
(`src/core/update.js`, tactical build). -/
inductive AIState where
  | PATROL
  | CHASE
  | ENGAGE
  | REPOSITION
deriving DecidableEq, Repr

/-- The enemy roles assigned by the droid factory. -/
inductive Role where
  | PURSUER
  | ZONE_GUARD
deriving DecidableEq, Repr

/-- `AI_DETECTION_RANGE` of `src/core/update.js`. -/
def AI_DETECTION_RANGE : ℚ := 22

/-- `REPOSITION_TIMEOUT_MS` of `src/core/update.js`. -/
def REPOSITION_TIMEOUT_MS : ℚ := 1800

/-- The mutable per-enemy AI record `enemy.userData.ai` (patrol indices are
movement-only and omitted; the randomly chosen reposition target is tracked
as a presence flag). -/
structure AIRec where
  role : Role
  state : AIState
  lastSeenPlayerAt : ℚ
  hasRepositionTarget : Bool
deriving DecidableEq, Repr

/-- The geometry and clock inputs of one AI tick, supplied by the spatial
collaborator: distance to the player, line-of-sight, the current time, and
the outcomes of the movement sub-steps (`updateChase` blocked, reposition
arrival). -/
structure AIEnv where
  distance : ℚ
  hasLOS : Bool
  now : ℚ
  blockedChase : Bool
  repositionArrived : Bool
deriving DecidableEq, Repr

/-- Result of one per-enemy AI tick: the updated record, the list of state
transitions performed (one entry per effective `setAIState` call, in order),
and whether a fire attempt was issued. -/
structure AITickResult where
  ai : AIRec
  transitions : List (AIState × AIState)
  firedAttempt : Bool
deriving DecidableEq, Repr

/-- `setAIState` of `src/core/update.js`: a no-op when the state is
unchanged, otherwise records the transition (the source logs it) and sets the
new state. -/
def setAIStateT (ai : AIRec) (trace : List (AIState × AIState))
    (next : AIState) : AIRec × List (AIState × AIState) :=
  if ai.state = next then (ai, trace)
  else ({ ai with state := next }, trace ++ [(ai.state, next)])

/-- The line-of-sight bookkeeping at the top of the per-enemy combat tick:
`if (hasLOS) ai.lastSeenPlayerAt = now`. -/
def aiSeen (env : AIEnv) (ai : AIRec) : AIRec :=
  if env.hasLOS then { ai with lastSeenPlayerAt := env.now } else ai

/-- The two detection checks of the per-enemy combat tick: distance < 22
with LOS moves PATROL to CHASE, then a PURSUER still in PATROL is force-moved
to CHASE. -/
def aiDetect (env : AIEnv) (ai : AIRec) : AIRec × List (AIState × AIState) :=
  let d1 :=
    if env.distance < AI_DETECTION_RANGE ∧ env.hasLOS = true then
      if ai.state = AIState.PATROL then setAIStateT ai [] AIState.CHASE
      else (ai, [])
    else (ai, [])
  if d1.1.role = Role.PURSUER ∧ d1.1.state = AIState.PATROL then
    setAIStateT d1.1 d1.2 AIState.CHASE
  else d1

/-- The state-branch dispatch of the per-enemy combat tick, run on the
(possibly just-updated) state: CHASE may advance to ENGAGE (within 95% of
range with LOS) or fall back to REPOSITION (LOS lost > 1800 ms, or movement
blocked); ENGAGE may revert to CHASE (LOS lost > 1200 ms), issues a fire
attempt while LOS holds within range + 2, and falls back to REPOSITION (LOS
lost > 1800 ms); REPOSITION resolves on arrival (or a missing target) to
ENGAGE / PATROL (ZONE_GUARD) / CHASE, or to ENGAGE mid-transit once range and
LOS are satisfied; PATROL only patrol-moves. -/
def aiDispatch (range : ℚ) (env : AIEnv) (ai2 : AIRec)
    (tr2 : List (AIState × AIState)) : AITickResult :=
  if ai2.state = AIState.PATROL then ⟨ai2, tr2, false⟩
  else if ai2.state = AIState.CHASE then
    if env.distance ≤ range * (19/20) ∧ env.hasLOS = true then
      let p := setAIStateT ai2 tr2 AIState.ENGAGE
      ⟨p.1, p.2, false⟩
    else if env.hasLOS = false ∧
        REPOSITION_TIMEOUT_MS < env.now - ai2.lastSeenPlayerAt then
      let p := setAIStateT { ai2 with hasRepositionTarget := true } tr2
        AIState.REPOSITION
      ⟨p.1, p.2, false⟩
    else if env.blockedChase = true then
      let p := setAIStateT { ai2 with hasRepositionTarget := true } tr2
        AIState.REPOSITION
      ⟨p.1, p.2, false⟩
    else ⟨ai2, tr2, false⟩
  else if ai2.state = AIState.ENGAGE then
    let e1 :=
      if env.hasLOS = false ∧ 1200 < env.now - ai2.lastSeenPlayerAt then
        setAIStateT ai2 tr2 AIState.CHASE
      else (ai2, tr2)
    let fired := env.hasLOS && decide (env.distance < range + 2)
    let e2 :=
      if env.hasLOS = false ∧
          REPOSITION_TIMEOUT_MS < env.now - e1.1.lastSeenPlayerAt then
        setAIStateT { e1.1 with hasRepositionTarget := true } e1.2
          AIState.REPOSITION
      else e1
    ⟨e2.1, e2.2, fired⟩
  else
    let done := if ai2.hasRepositionTarget = false then true
      else env.repositionArrived
    if done = true then
      let a := { ai2 with hasRepositionTarget := false }
      if env.distance ≤ range ∧ env.hasLOS = true then
        let p := setAIStateT a tr2 AIState.ENGAGE
        ⟨p.1, p.2, false⟩
      else if a.role = Role.ZONE_GUARD then
        let p := setAIStateT a tr2 AIState.PATROL
        ⟨p.1, p.2, false⟩
      else
        let p := setAIStateT a tr2 AIState.CHASE
        ⟨p.1, p.2, false⟩
    else if env.distance ≤ range ∧ env.hasLOS = true then
      let a := { ai2 with hasRepositionTarget := false }
      let p := setAIStateT a tr2 AIState.ENGAGE
      ⟨p.1, p.2, false⟩
    else ⟨ai2, tr2, false⟩

/-- The per-enemy body of `updateEnemies` (`src/core/update.js`, tactical
build), with movement reduced to its state-machine effects: outside the live
combat phase a ZONE_GUARD is forced back to PATROL and everything else is
frozen; during live combat the tick is the composition of the line-of-sight
bookkeeping, the detection checks, and the state-branch dispatch. -/
def enemyAITick (range : ℚ) (env : AIEnv) (ai0 : AIRec)
    (isCombatPhase : Bool) : AITickResult :=
  if isCombatPhase = false then
    if ai0.role = Role.ZONE_GUARD then
      let p := setAIStateT ai0 [] AIState.PATROL
      ⟨p.1, p.2, false⟩
    else ⟨ai0, [], false⟩
  else
    let d := aiDetect env (aiSeen env ai0)
    aiDispatch range env d.1 d.2

/-- The C7 witness environment: distance 10, clear line of sight. -/
def c7Env : AIEnv := ⟨10, true, 0, false, false⟩

/-- The C7 witness environment at distance 30. -/
def c7EnvFar : AIEnv := ⟨30, true, 0, false, false⟩

/-- A ZONE_GUARD on patrol. -/
def c7Guard : AIRec := ⟨Role.ZONE_GUARD, AIState.PATROL, 0, false⟩

/-- A PURSUER (incorrectly) found on patrol. -/
def c7Pursuer : AIRec := ⟨Role.PURSUER, AIState.PATROL, 0, false⟩

/-- C5: a fire attempt with zero (or negative) ammo, or made before the
weapon's fire-rate interval has elapsed, is silently rejected with ammo and
last-fire timestamp unchanged and no projectile created; otherwise exactly one
ammo unit is consumed per activation regardless of pellet count, the shotgun
creates its configured 8 pellets and every other weapon creates exactly one
projectile. -/
theorem fire_rate_limit_and_ammo (wt : WeaponType) (a : ℤ) (lf now : ℚ) :
    ((a ≤ 0 ∨ now - lf < (weapons wt).fireRate) →
      fireWeaponLogic wt a lf now = ⟨a, lf, 0⟩) ∧
    (0 < a → (weapons wt).fireRate ≤ now - lf →
      fireWeaponLogic wt a lf now = ⟨a - 1, now, bulletsPerShot wt⟩) ∧
    bulletsPerShot WeaponType.shotgun = 8 ∧
    (wt ≠ WeaponType.shotgun → bulletsPerShot wt = 1) := by
  refine ⟨fun h => ?_, fun h1 h2 => ?_, by decide, fun h => ?_⟩
  · simp only [fireWeaponLogic, if_pos h]
  · have hc : ¬(a ≤ 0 ∨ now - lf < (weapons wt).fireRate) := by
      push_neg
      exact ⟨h1, h2⟩
    simp only [fireWeaponLogic, if_neg hc]
  · cases wt <;> simp_all [bulletsPerShot]

/-- Witness for C5: concrete rejected and accepted fire attempts with the
rifle (capacity 30, fire rate 150 ms). -/
theorem fire_rate_limit_and_ammo_witness :
    fireWeaponLogic WeaponType.rifle 0 0 1000 = ⟨0, 0, 0⟩ ∧
    fireWeaponLogic WeaponType.rifle 5 0 1000 = ⟨4, 1000, 1⟩ := by
  constructor
  · exact (fire_rate_limit_and_ammo WeaponType.rifle 0 0 1000).1
      (Or.inl le_rfl)
  · have h := (fire_rate_limit_and_ammo WeaponType.rifle 5 0 1000).2.1
      (by decide) (by norm_num [weapons])
    simpa [bulletsPerShot] using h

/-- C6: reload returns the magazine capacity when the current ammo differs
from it, returns the ammo unchanged when it already equals capacity, and is
idempotent. -/
theorem reload_sets_capacity_and_idempotent (wt : WeaponType) (a : ℤ) :
    (a ≠ (weapons wt).maxAmmo → reloadWeapon wt a = (weapons wt).maxAmmo) ∧
    reloadWeapon wt ((weapons wt).maxAmmo) = (weapons wt).maxAmmo ∧
    reloadWeapon wt (reloadWeapon wt a) = reloadWeapon wt a := by
  refine ⟨fun h => ?_, ?_, ?_⟩
  · simp only [reloadWeapon, if_neg h]
  · simp [reloadWeapon]
  · by_cases h : a = (weapons wt).maxAmmo <;> simp [reloadWeapon, h]

/-- Witness for C6: reloading the rifle at 5 rounds fills it to 30, and
reloading again is a no-op. -/
theorem reload_sets_capacity_and_idempotent_witness :
    reloadWeapon WeaponType.rifle 5 = 30 ∧
    reloadWeapon WeaponType.rifle (reloadWeapon WeaponType.rifle 5) =
      reloadWeapon WeaponType.rifle 5 := by
  constructor
  · exact (reload_sets_capacity_and_idempotent WeaponType.rifle 5).1
      (by decide)
  · exact (reload_sets_capacity_and_idempotent WeaponType.rifle 5).2.2

/-- C10: the player's fire command is a no-op on the whole game state (in
particular on ammo, last-fire time and the bullet collection) whenever the
game is not started, the phase is not COMBAT, or combat is not yet live —
which covers IDLE, PREP_COUNTDOWN, the combat activation delay, INTERMISSION,
ROUND_END, ARENA_GATE_OPEN and ARENA_SWAP. -/
theorem fire_noop_outside_live_combat (now : ℚ) (s : GState)
    (h : s.gameStarted = false ∨ s.phase ≠ Phase.COMBAT ∨
      s.combatLive = false) :
    fireCommand now s = s := by
  simp only [fireCommand, if_pos h]

/-- Witness for C10: firing in the initial (IDLE, not-started) state changes
nothing. -/
theorem fire_noop_outside_live_combat_witness :
    fireCommand 0 initState = initState :=
  fire_noop_outside_live_combat 0 initState (Or.inl rfl)

/-- C4: the number of enemies spawned for a round equals
`5 + floor(g × 1.5) + floor((f − 1) × 0.8)`: the source formula agrees with
the specification formula for all rounds and floors, the round-advance and
floor-advance transitions spawn exactly that many enemies, a fresh game
spawns `getEnemiesForRound 1 1`, and `g = 3, f = 2` yields 9. -/
theorem enemies_per_round_formula :
    (∀ g f : ℤ, getEnemiesForRound g f = enemyCountSpec g f) ∧
    (∀ s : GState,
      (startNextRound s).enemies = getEnemiesForRound (s.round + 1) s.floor) ∧
    (∀ s : GState, (advanceToNextFloor s).enemies =
      getEnemiesForRound (s.round + 1) (s.floor + 1)) ∧
    (∀ s : GState, (startGame s).enemies = getEnemiesForRound 1 1) ∧
    getEnemiesForRound 3 2 = 9 := by
  refine ⟨fun g f => ?_, fun s => rfl, fun s => rfl, fun s => rfl, ?_⟩
  · norm_num [getEnemiesForRound, enemyCountSpec]
  · norm_num [getEnemiesForRound]

/-- C3: for every enemy the program spawns — the droid factory
(`src/entities/droid.js`) assigns base health 100 — the spawned health equals
the claimed `max 25 ⌊100 × (1 + 0.15 × (f − 1))⌋`: at base 100 the scaled
value is the exact integer `100 + 15 × (max 1 f − 1)`, so the code's
`Math.round` coincides with the claimed floor, the minimum of 25 never binds
(the result is at least 100, and at least 25 for any base health), and on
floor 4 the spawned health is 145. -/
theorem spawned_health_floor_formula :
    (∀ f : ℤ,
      scaledSpawnHealth 100 f = max 25 ⌊(100 : ℚ) * healthScale f⌋) ∧
    (∀ f : ℤ, scaledSpawnHealth 100 f = 100 + 15 * (max 1 f - 1)) ∧
    (∀ (h : ℚ) (f : ℤ), 25 ≤ scaledSpawnHealth h f) ∧
    scaledSpawnHealth 100 4 = 145 := by
  have key : ∀ f : ℤ,
      (100 : ℚ) * healthScale f = ((100 + 15 * (max 1 f - 1) : ℤ) : ℚ) := by
    intro f
    rw [healthScale]
    push_cast
    ring
  have floorKey : ∀ f : ℤ,
      ⌊(100 : ℚ) * healthScale f⌋ = 100 + 15 * (max 1 f - 1) := by
    intro f
    rw [key f, Int.floor_intCast]
  have roundKey : ∀ f : ℤ,
      jsRound ((100 : ℚ) * healthScale f) = 100 + 15 * (max 1 f - 1) := by
    intro f
    rw [jsRound, key f, Int.floor_int_add]
    norm_num
  have big : ∀ f : ℤ, (25 : ℤ) ≤ 100 + 15 * (max 1 f - 1) := by
    intro f
    have hm : (1 : ℤ) ≤ max 1 f := le_max_left 1 f
    omega
  refine ⟨fun f => ?_, fun f => ?_, fun h f => le_max_left _ _, ?_⟩
  · rw [scaledSpawnHealth, roundKey f, floorKey f]
  · rw [scaledSpawnHealth, roundKey f, max_eq_right (big f)]
  · have h4 := roundKey 4
    rw [scaledSpawnHealth, h4]
    decide

@[simp] theorem prepTickState_phase (d : ℚ) (s : GState) :
    (prepTickState d s).phase = s.phase := rfl

@[simp] theorem prepTickState_phaseTimer (d : ℚ) (s : GState) :
    (prepTickState d s).phaseTimer = s.phaseTimer - d := rfl

@[simp] theorem prepTickState_combatLive (d : ℚ) (s : GState) :
    (prepTickState d s).combatLive = s.combatLive := rfl

@[simp] theorem prepTickState_enemies (d : ℚ) (s : GState) :
    (prepTickState d s).enemies = s.enemies := rfl

@[simp] theorem enterCombatActivation_phase (s : GState) :
    (enterCombatActivation s).phase = Phase.COMBAT := rfl

@[simp] theorem enterCombatActivation_phaseTimer (s : GState) :
    (enterCombatActivation s).phaseTimer = 1 := rfl

@[simp] theorem enterCombatActivation_combatLive (s : GState) :
    (enterCombatActivation s).combatLive = false := rfl

@[simp] theorem enterCombatActivation_enemies (s : GState) :
    (enterCombatActivation s).enemies = s.enemies := rfl

/-- A prep-countdown tick whose decremented timer reaches zero or below
enters the combat-activation sub-state. -/
theorem updatePhase_prep_cross (d : ℚ) (s : GState)
    (hph : s.phase = Phase.PREP_COUNTDOWN) (h : s.phaseTimer - d ≤ 0) :
    updatePhase d s = enterCombatActivation (prepTickState d s) := by
  simp only [updatePhase, hph, if_pos, prepTickState_phaseTimer, if_true]
  rw [if_pos h]

/-- A prep-countdown tick whose decremented timer stays positive only
decrements the timer and refreshes the countdown display. -/
theorem updatePhase_prep_stay (d : ℚ) (s : GState)
    (hph : s.phase = Phase.PREP_COUNTDOWN) (h : ¬s.phaseTimer - d ≤ 0) :
    updatePhase d s = prepTickState d s := by
  simp only [updatePhase, hph, if_pos, prepTickState_phaseTimer, if_true]
  rw [if_neg h]

/-- Crossing lemma: from a prep countdown with positive timer, any positive
tick sequence whose total elapsed time reaches the timer has a prefix after
which the state is COMBAT with `combatLive = false`, activation timer 1 and
the enemy count untouched. -/
theorem prep_countdown_crossing (ds : List ℚ) :
    ∀ s : GState, (∀ d ∈ ds, 0 < d) → s.phase = Phase.PREP_COUNTDOWN →
    0 < s.phaseTimer → s.phaseTimer ≤ ds.sum →
    ∃ n, n ≤ ds.length ∧
      (runTicks (ds.take n) s).phase = Phase.COMBAT ∧
      (runTicks (ds.take n) s).combatLive = false ∧
      (runTicks (ds.take n) s).phaseTimer = 1 ∧
      (runTicks (ds.take n) s).enemies = s.enemies := by
  induction ds with
  | nil =>
    intro s _ _ ht hsum
    rw [List.sum_nil] at hsum
    exact absurd (lt_of_lt_of_le ht hsum) (lt_irrefl 0)
  | cons d rest ih =>
    intro s hpos hph ht hsum
    by_cases hcross : s.phaseTimer - d ≤ 0
    · refine ⟨1, by simp, ?_⟩
      have h1 : runTicks (List.take 1 (d :: rest)) s =
          enterCombatActivation (prepTickState d s) := by
        simp only [List.take_succ_cons, List.take_zero, runTicks]
        exact updatePhase_prep_cross d s hph hcross
      rw [h1]
      simp
    · have hrest : (prepTickState d s).phaseTimer ≤ rest.sum := by
        rw [prepTickState_phaseTimer]
        rw [List.sum_cons] at hsum
        linarith
      obtain ⟨n, hn, h1, h2, h3, h4⟩ := ih (prepTickState d s)
        (fun x hx => hpos x (List.mem_cons_of_mem d hx))
        (by rw [prepTickState_phase]; exact hph)
        (by rw [prepTickState_phaseTimer]; linarith)
        hrest
      refine ⟨n + 1, by simpa using Nat.succ_le_succ hn, ?_, ?_, ?_, ?_⟩ <;>
        rw [List.take_succ_cons, runTicks, updatePhase_prep_stay d s hph hcross]
      · exact h1
      · exact h2
      · exact h3
      · rw [h4]
        simp

/-- Once combat is live with enemies remaining, phase ticks change nothing. -/
theorem combat_live_stays (es : List ℚ) :
    ∀ s : GState, s.phase = Phase.COMBAT → s.combatLive = true →
    s.enemies ≠ 0 → runTicks es s = s := by
  induction es with
  | nil => intro s _ _ _; rfl
  | cons e rest ih =>
    intro s h1 h2 h3
    have hstep : updatePhase e s = s := by
      simp [updatePhase, h1, h2, h3]
    rw [runTicks, hstep]
    exact ih s h1 h2 h3

/-- Activation lemma: from the combat-activation sub-state (COMBAT entered,
`combatLive = false`, positive activation timer, enemies present), any
positive tick sequence whose total elapsed time reaches the timer ends with
the phase still COMBAT and `combatLive = true`. -/
theorem combat_activation_completes (es : List ℚ) :
    ∀ s : GState, (∀ d ∈ es, 0 < d) → s.phase = Phase.COMBAT →
    s.combatLive = false → s.enemies ≠ 0 → 0 < s.phaseTimer →
    s.phaseTimer ≤ es.sum →
    (runTicks es s).phase = Phase.COMBAT ∧
    (runTicks es s).combatLive = true := by
  induction es with
  | nil =>
    intro s _ _ _ _ ht hsum
    rw [List.sum_nil] at hsum
    exact absurd (lt_of_lt_of_le ht hsum) (lt_irrefl 0)
  | cons e rest ih =>
    intro s hpos hph hlive hen ht hsum
    by_cases hcross : s.phaseTimer - e ≤ 0
    · have hstep : updatePhase e s =
          { s with combatLive := true, phaseTimer := 0 } := by
        simp [updatePhase, hph, hlive, hcross, activateCombat]
      have hstay := combat_live_stays rest
        { s with combatLive := true, phaseTimer := 0 } hph rfl hen
      rw [runTicks, hstep, hstay]
      exact ⟨hph, rfl⟩
    · have hstep : updatePhase e s =
          { s with phaseTimer := s.phaseTimer - e } := by
        simp [updatePhase, hph, hlive, hcross]
      rw [runTicks, hstep]
      refine ih { s with phaseTimer := s.phaseTimer - e }
        (fun x hx => hpos x (List.mem_cons_of_mem e hx)) hph hlive hen
        (by simpa using lt_of_not_le hcross) ?_
      rw [List.sum_cons] at hsum
      simp only []
      linarith

/-- C1: from IDLE, `startGame` enters PREP_COUNTDOWN with phase timer 3 and
`combatLive = false`; any positive tick sequence accumulating more than 3
seconds has a prefix after which the phase is COMBAT with `combatLive` still
false, and from that point any further positive ticks accumulating at least
1 second make `combatLive` true (phase still COMBAT). -/
theorem start_game_phase_sequencing (s0 : GState) (ds es : List ℚ)
    (_h0 : s0.phase = Phase.IDLE)
    (hds : ∀ d ∈ ds, 0 < d) (hes : ∀ d ∈ es, 0 < d)
    (hsum : 3 < ds.sum) (hsum2 : 1 ≤ es.sum) :
    (startGame s0).phase = Phase.PREP_COUNTDOWN ∧
    (startGame s0).phaseTimer = 3 ∧
    (startGame s0).combatLive = false ∧
    ∃ n, n ≤ ds.length ∧
      (runTicks (ds.take n) (startGame s0)).phase = Phase.COMBAT ∧
      (runTicks (ds.take n) (startGame s0)).combatLive = false ∧
      (runTicks es (runTicks (ds.take n) (startGame s0))).phase =
        Phase.COMBAT ∧
      (runTicks es (runTicks (ds.take n) (startGame s0))).combatLive =
        true := by
  have hph : (startGame s0).phase = Phase.PREP_COUNTDOWN := rfl
  have htm : (startGame s0).phaseTimer = 3 := rfl
  have hen : (startGame s0).enemies = getEnemiesForRound 1 1 := rfl
  have hen6 : getEnemiesForRound 1 1 = 6 := by norm_num [getEnemiesForRound]
  obtain ⟨n, hn, h1, h2, h3, h4⟩ := prep_countdown_crossing ds (startGame s0)
    hds hph (by rw [htm]; norm_num) (by rw [htm]; linarith)
  have h5 : (runTicks (ds.take n) (startGame s0)).enemies ≠ 0 := by
    rw [h4, hen, hen6]
    decide
  obtain ⟨hc1, hc2⟩ := combat_activation_completes es _ hes h1 h2 h5
    (by rw [h3]; norm_num) (by rw [h3]; exact hsum2)
  exact ⟨hph, htm, rfl, n, hn, h1, h2, hc1, hc2⟩

/-- Witness for C1: two 2-second ticks cross the 3-second countdown, one
further 1-second tick makes combat live. -/
theorem start_game_phase_sequencing_witness :
    (startGame initState).phase = Phase.PREP_COUNTDOWN ∧
    (startGame initState).phaseTimer = 3 ∧
    (startGame initState).combatLive = false ∧
    ∃ n, n ≤ ([2, 2] : List ℚ).length ∧
      (runTicks (([2, 2] : List ℚ).take n) (startGame initState)).phase =
        Phase.COMBAT ∧
      (runTicks (([2, 2] : List ℚ).take n)
        (startGame initState)).combatLive = false ∧
      (runTicks ([1] : List ℚ) (runTicks (([2, 2] : List ℚ).take n)
        (startGame initState))).phase = Phase.COMBAT ∧
      (runTicks ([1] : List ℚ) (runTicks (([2, 2] : List ℚ).take n)
        (startGame initState))).combatLive = true :=
  start_game_phase_sequencing initState [2, 2] [1] rfl
    (by norm_num [List.forall_mem_cons]) (by norm_num [List.forall_mem_cons])
    (by norm_num) (by norm_num)

/-- Phase ticks never touch the weapon fields. -/
theorem updatePhase_weapon_fields (d : ℚ) (s : GState) :
    (updatePhase d s).ammo = s.ammo ∧
    (updatePhase d s).weaponType = s.weaponType ∧
    (updatePhase d s).weaponAmmo = s.weaponAmmo := by
  simp only [updatePhase, prepTickState, enterCombatActivation,
    activateCombat, enterIntermission, enterRoundEnd, enterArenaGateOpen,
    enterArenaSwap, startNextRound, advanceToNextFloor, enterPrepCountdown]
  split_ifs <;> exact ⟨rfl, rfl, rfl⟩

/-- The fire command preserves the ammo invariant. -/
theorem fireCommand_ammoInvariant (now : ℚ) (s : GState)
    (h : ammoInvariant s) : ammoInvariant (fireCommand now s) := by
  unfold fireCommand
  split_ifs with hg
  · exact h
  · obtain ⟨h1, h2, h3, h4, h5, h6, h7, h8⟩ := h
    have hra : 0 ≤ (fireWeaponLogic s.weaponType s.ammo s.lastFireTime
          now).ammo ∧
        (fireWeaponLogic s.weaponType s.ammo s.lastFireTime now).ammo ≤
          (weapons s.weaponType).maxAmmo := by
      unfold fireWeaponLogic
      split_ifs with hc
      · exact ⟨h1, h2⟩
      · push_neg at hc
        constructor
        · simp only []
          omega
        · simp only []
          omega
    obtain ⟨hra1, hra2⟩ := hra
    cases hwt : s.weaponType <;>
      rw [hwt] at hra2 <;>
      simp_all [ammoInvariant, setWAmmo, weapons]

/-- The reload key preserves the ammo invariant. -/
theorem reloadCommand_ammoInvariant (s : GState) (h : ammoInvariant s) :
    ammoInvariant (reloadCommand s) := by
  unfold reloadCommand
  split_ifs with hg
  · exact h
  · obtain ⟨h1, h2, h3, h4, h5, h6, h7, h8⟩ := h
    have hra : 0 ≤ reloadWeapon s.weaponType s.ammo ∧
        reloadWeapon s.weaponType s.ammo ≤ (weapons s.weaponType).maxAmmo := by
      unfold reloadWeapon
      split_ifs with hc
      · exact ⟨h1, h2⟩
      · cases s.weaponType <;> simp [weapons]
    obtain ⟨hra1, hra2⟩ := hra
    cases hwt : s.weaponType <;>
      rw [hwt] at hra2 <;>
      simp_all [ammoInvariant, setWAmmo, weapons]

/-- Weapon switching preserves the ammo invariant. -/
theorem attemptWeaponSwitch_ammoInvariant (wt : WeaponType) (s : GState)
    (h : ammoInvariant s) : ammoInvariant (attemptWeaponSwitch wt s) := by
  unfold attemptWeaponSwitch
  split_ifs with hg hl hsame
  · exact h
  · exact h
  · exact h
  · obtain ⟨h1, h2, h3, h4, h5, h6, h7, h8⟩ := h
    cases wt <;> simp_all [ammoInvariant, getWAmmo, weapons]

/-- Every session input preserves the ammo invariant. -/
theorem applyAction_ammoInvariant (s : GState) (a : GAction)
    (h : ammoInvariant s) : ammoInvariant (applyAction s a) := by
  cases a with
  | tick d =>
    obtain ⟨e1, e2, e3⟩ := updatePhase_weapon_fields d s
    unfold ammoInvariant at h ⊢
    rw [applyAction, e1, e2, e3]
    exact h
  | fire now => exact fireCommand_ammoInvariant now s h
  | reload => exact reloadCommand_ammoInvariant s h
  | switchWeapon wt => exact attemptWeaponSwitch_ammoInvariant wt s h
  | unlockPickup wt => exact h

/-- The ammo invariant is preserved along any input sequence. -/
theorem runActions_ammoInvariant (acts : List GAction) :
    ∀ s : GState, ammoInvariant s → ammoInvariant (runActions acts s) := by
  induction acts with
  | nil => intro s h; exact h
  | cons a rest ih =>
    intro s h
    exact ih (applyAction s a) (applyAction_ammoInvariant s a h)

/-- C9: along every sequence of session inputs (ticks, fire, reload,
weapon-switch, unlock pickups) starting from the freshly started session, the
active weapon's ammo stays between 0 and that weapon's magazine capacity. -/
theorem ammo_never_negative_never_above_capacity (acts : List GAction) :
    0 ≤ (runActions acts (startGame initState)).ammo ∧
    (runActions acts (startGame initState)).ammo ≤
      (weapons (runActions acts (startGame initState)).weaponType).maxAmmo := by
  have h := runActions_ammoInvariant acts (startGame initState)
    (by unfold ammoInvariant; decide)
  exact ⟨h.1, h.2.1⟩

theorem stepBullet_pos (b : PBullet) :
    (stepBullet b).pos = vadd b.pos (vscale b.speed b.dir) := rfl

@[simp] theorem stepBullet_distance (b : PBullet) :
    (stepBullet b).distance = b.distance + b.speed := rfl

@[simp] theorem stepBullet_range (b : PBullet) :
    (stepBullet b).range = b.range := rfl

/-- Closed form for the C2 flight while in range: after `n ≤ 100` ticks the
scenario bullet is alive at distance `n`, position `(0, 0, −n)`. -/
theorem flightAfter_le_100 (n : ℕ) (hn : n ≤ 100) :
    flightAfter n =
      some ⟨⟨0, 0, -(n : ℚ)⟩, ⟨0, 0, -1⟩, 1, 100, (n : ℚ), 20⟩ := by
  induction n with
  | zero =>
    show some rifleFlightBullet = _
    norm_num [rifleFlightBullet, weapons]
  | succ n ih =>
    have hstep : flightAfter (n + 1) =
        (fun ob => ob.bind fun b => (updateOneBullet b [] false).1)
          (flightAfter n) :=
      Function.iterate_succ_apply' _ _ _
    rw [hstep, ih (Nat.le_of_succ_le hn)]
    have hle : (n : ℚ) + 1 ≤ 100 := by exact_mod_cast hn
    simp only [Option.some_bind, updateOneBullet, scanEnemies,
      stepBullet_distance, stepBullet_range]
    rw [if_neg (by simp; linarith)]
    simp only [Option.some.injEq, stepBullet, vadd, vscale,
      PBullet.mk.injEq, Vec3.mk.injEq]
    push_cast
    norm_num
    ring

/-- The C2 flight ends on tick 101: the removal condition
`distance > range` first holds at distance 101. -/
theorem flightAfter_101 : flightAfter 101 = none := by
  have hstep : flightAfter 101 =
      (fun ob => ob.bind fun b => (updateOneBullet b [] false).1)
        (flightAfter 100) :=
    Function.iterate_succ_apply' _ _ _
  rw [hstep, flightAfter_le_100 100 le_rfl]
  simp only [Option.some_bind, updateOneBullet, scanEnemies,
    stepBullet_distance, stepBullet_range]
  rw [if_pos (by norm_num)]

/-- C2 counterexample: the scenario projectile (range 100, speed 1.0, no
hits) is NOT removed after exactly 100 ticks — after 100 ticks its traveled
distance is 100, which does not exceed the range 100 — it is removed on the
101st tick. -/
theorem bullet_survives_100th_tick :
    flightAfter 100 ≠ none ∧ flightAfter 101 = none := by
  constructor
  · rw [flightAfter_le_100 100 le_rfl]
    exact Option.some_ne_none _
  · exact flightAfter_101

/-- C2 amended: a live projectile is removed exactly when its accumulated
traveled distance exceeds its configured range, a hit was registered (enemy
for player bullets, player for enemy bullets), or a wall impact occurred this
tick; consequently the player projectile with range 100 and speed 1.0 that
hits nothing survives ticks 1 through 100 (distance exactly 100 after tick
100, not exceeding the range) and is removed on tick 101, the first tick on
which its traveled distance (101) exceeds the range. -/
theorem bullet_removal_conditions :
    (∀ (b : PBullet) (enemies : List Enemy) (hitWall : Bool),
      (updateOneBullet b enemies hitWall).1 = none ↔
        (b.distance + b.speed > b.range ∨
          (scanEnemies (stepBullet b) enemies).hit = true ∨
          hitWall = true)) ∧
    (∀ (b : PBullet) (playerPos : Vec3) (hitWall : Bool),
      (updateOneEnemyBullet b playerPos hitWall).1 = none ↔
        (withinDist (stepBullet b).pos playerPos 1 = true ∨
          b.distance + b.speed > b.range ∨ hitWall = true)) ∧
    (∀ n : ℕ, n ≤ 100 → flightAfter n ≠ none) ∧
    flightAfter 101 = none := by
  refine ⟨fun b enemies hitWall => ?_, fun b p hitWall => ?_,
    fun n hn => ?_, flightAfter_101⟩
  · simp only [updateOneBullet, stepBullet_distance, stepBullet_range]
    split_ifs with h
    · simpa using h
    · simpa using h
  · simp only [updateOneEnemyBullet, stepBullet_distance, stepBullet_range]
    split_ifs with h1 h2
    · simp [h1]
    · simp [h1]
      exact h2
    · simp [h1]
      push_neg at h2
      exact ⟨h2.1, by simpa using h2.2⟩
  · rw [flightAfter_le_100 n hn]
    exact Option.some_ne_none _

/-- Witness for the amended C2: the scenario projectile is still live after
tick 100. -/
theorem bullet_removal_conditions_witness : flightAfter 100 ≠ none :=
  bullet_removal_conditions.2.2.1 100 le_rfl

/-- C8: for one player projectile in one tick, the enemy-hit scan damages at
most one enemy — the first in collection order whose hit-center lies within
1.2 units of the bullet — by exactly the projectile's damage; if the
resulting health is ≤ 0 that enemy is removed from the collection in the same
tick and exactly one kill event fires; enemies before it are untouched,
enemies after it are not visited; and if no enemy is within the hit radius
the collection is unchanged, no hit registers and no kill event fires. -/
theorem first_enemy_in_radius_takes_damage (b : PBullet) :
    (∀ (pre post : List Enemy) (e : Enemy),
      (∀ x ∈ pre, withinDist b.pos (hitCenter x) (6/5) = false) →
      withinDist b.pos (hitCenter e) (6/5) = true →
      scanEnemies b (pre ++ e :: post) =
        if e.health - b.damage ≤ 0 then ⟨pre ++ post, true, 1⟩
        else
          ⟨pre ++ ({ e with health := e.health - b.damage } :: post),
            true, 0⟩) ∧
    (∀ es : List Enemy,
      (∀ x ∈ es, withinDist b.pos (hitCenter x) (6/5) = false) →
      scanEnemies b es = ⟨es, false, 0⟩) := by
  constructor
  · intro pre post e
    induction pre with
    | nil =>
      intro _ he
      simp [scanEnemies, he]
    | cons x pr ih =>
      intro hpre he
      have hx := hpre x (List.mem_cons_self x pr)
      have hrest := ih (fun y hy => hpre y (List.mem_cons_of_mem x hy)) he
      rw [List.cons_append]
      simp only [scanEnemies, hx, Bool.false_eq_true, if_false, hrest]
      split_ifs with h <;> simp
  · intro es
    induction es with
    | nil => intro _; rfl
    | cons x rest ih =>
      intro hes
      have hx := hes x (List.mem_cons_self x rest)
      have hrest := ih (fun y hy => hes y (List.mem_cons_of_mem x hy))
      simp only [scanEnemies, hx, Bool.false_eq_true, if_false, hrest]

/-- Witness for C8: the scan skips the out-of-radius first enemy, the second
enemy takes the 20 damage (15 − 20 ≤ 0), is removed, and one kill event
fires. -/
theorem first_enemy_in_radius_takes_damage_witness :
    scanEnemies c8Bullet [c8FarEnemy, c8NearEnemy] =
      ⟨[c8FarEnemy], true, 1⟩ := by
  have h := (first_enemy_in_radius_takes_damage c8Bullet).1 [c8FarEnemy] []
    c8NearEnemy
    (by
      intro x hx
      rw [List.mem_singleton] at hx
      subst hx
      norm_num [withinDist, distSq, hitCenter, c8Bullet, c8FarEnemy])
    (by norm_num [withinDist, distSq, hitCenter, c8Bullet, c8NearEnemy])
  rw [if_pos (by norm_num [c8Bullet, c8NearEnemy])] at h
  simpa using h

theorem setAIStateT_state (ai : AIRec) (tr : List (AIState × AIState))
    (next : AIState) : (setAIStateT ai tr next).1.state = next := by
  unfold setAIStateT
  split_ifs with h
  · exact h
  · rfl

theorem setAIStateT_trace_mono (ai : AIRec) (tr : List (AIState × AIState))
    (next : AIState) (x : AIState × AIState) (hx : x ∈ tr) :
    x ∈ (setAIStateT ai tr next).2 := by
  unfold setAIStateT
  split_ifs with h
  · exact hx
  · exact List.mem_append_left _ hx

theorem aiSeen_state (env : AIEnv) (ai : AIRec) :
    (aiSeen env ai).state = ai.state := by
  unfold aiSeen
  split <;> rfl

theorem aiSeen_role (env : AIEnv) (ai : AIRec) :
    (aiSeen env ai).role = ai.role := by
  unfold aiSeen
  split <;> rfl

/-- If the enemy is in PATROL and either the detection condition holds or it
is a PURSUER, the detection pass moves it to CHASE and records exactly the
PATROL → CHASE transition. -/
theorem aiDetect_to_chase (env : AIEnv) (a : AIRec)
    (hst : a.state = AIState.PATROL)
    (h : (env.distance < AI_DETECTION_RANGE ∧ env.hasLOS = true) ∨
      a.role = Role.PURSUER) :
    aiDetect env a =
      ({ a with state := AIState.CHASE },
        [(AIState.PATROL, AIState.CHASE)]) := by
  by_cases hc : env.distance < AI_DETECTION_RANGE ∧ env.hasLOS = true
  · simp [aiDetect, setAIStateT, hc, hst]
  · rcases h with h | hrole
    · exact absurd h hc
    · simp [aiDetect, setAIStateT, hc, hst, hrole]

/-- If the enemy is a non-PURSUER in PATROL and the detection condition
fails, the detection pass changes nothing and records no transition. -/
theorem aiDetect_noop (env : AIEnv) (a : AIRec)
    (hst : a.state = AIState.PATROL)
    (hnot : ¬(env.distance < AI_DETECTION_RANGE ∧ env.hasLOS = true))
    (hrole : a.role ≠ Role.PURSUER) :
    aiDetect env a = (a, []) := by
  simp [aiDetect, setAIStateT, hnot, hst, hrole]

/-- The dispatch on a PATROL state only patrol-moves: no state change, no
transition recorded. -/
theorem aiDispatch_patrol (range : ℚ) (env : AIEnv) (a : AIRec)
    (tr : List (AIState × AIState)) (hst : a.state = AIState.PATROL) :
    aiDispatch range env a tr = ⟨a, tr, false⟩ := by
  unfold aiDispatch
  rw [if_pos hst]

/-- The dispatch on a CHASE state never returns to PATROL within the tick
and preserves every already-recorded transition. -/
theorem aiDispatch_chase (range : ℚ) (env : AIEnv) (a : AIRec)
    (tr : List (AIState × AIState)) (hst : a.state = AIState.CHASE) :
    (aiDispatch range env a tr).ai.state ≠ AIState.PATROL ∧
    ∀ x ∈ tr, x ∈ (aiDispatch range env a tr).transitions := by
  unfold aiDispatch
  rw [if_neg (by simp [hst]), if_pos hst]
  split_ifs with h1 h2 h3 <;> dsimp only
  · exact ⟨by rw [setAIStateT_state]; decide,
      fun x hx => setAIStateT_trace_mono _ _ _ x hx⟩
  · exact ⟨by rw [setAIStateT_state]; decide,
      fun x hx => setAIStateT_trace_mono _ _ _ x hx⟩
  · exact ⟨by rw [setAIStateT_state]; decide,
      fun x hx => setAIStateT_trace_mono _ _ _ x hx⟩
  · exact ⟨by rw [hst]; decide, fun x hx => hx⟩

/-- C7: during a live combat tick, an enemy in PATROL at distance < 22 with
line of sight performs the PATROL → CHASE transition within that tick (and
hence does not end the tick in PATROL — it may cascade onward to ENGAGE or
REPOSITION in the same tick); a non-PURSUER PATROL enemy whose detection
condition fails (e.g. at distance 30) performs no transition at all and stays
in PATROL; and a PURSUER found in PATROL performs the PATROL → CHASE
transition regardless of distance and line of sight. -/
theorem patrol_detection_transition (range : ℚ) (env : AIEnv) (ai : AIRec) :
    (ai.state = AIState.PATROL → env.hasLOS = true →
      env.distance < AI_DETECTION_RANGE →
      (AIState.PATROL, AIState.CHASE) ∈
        (enemyAITick range env ai true).transitions ∧
      (enemyAITick range env ai true).ai.state ≠ AIState.PATROL) ∧
    (ai.state = AIState.PATROL → ai.role = Role.ZONE_GUARD →
      ¬(env.distance < AI_DETECTION_RANGE ∧ env.hasLOS = true) →
      (enemyAITick range env ai true).ai.state = AIState.PATROL ∧
      (enemyAITick range env ai true).transitions = []) ∧
    (ai.state = AIState.PATROL → ai.role = Role.PURSUER →
      (AIState.PATROL, AIState.CHASE) ∈
        (enemyAITick range env ai true).transitions) := by
  have hcomb : enemyAITick range env ai true =
      aiDispatch range env (aiDetect env (aiSeen env ai)).1
        (aiDetect env (aiSeen env ai)).2 := by
    simp [enemyAITick]
  refine ⟨fun hst hlos hdist => ?_, fun hst hrole hnot => ?_,
    fun hst hrole => ?_⟩
  · have hseen : (aiSeen env ai).state = AIState.PATROL := by
      rw [aiSeen_state, hst]
    have hdet := aiDetect_to_chase env (aiSeen env ai) hseen
      (Or.inl ⟨hdist, hlos⟩)
    rw [hcomb, hdet]
    dsimp only
    obtain ⟨hs, hmono⟩ := aiDispatch_chase range env
      { aiSeen env ai with state := AIState.CHASE }
      [(AIState.PATROL, AIState.CHASE)] rfl
    exact ⟨hmono _ (List.mem_singleton.mpr rfl), hs⟩
  · have hseen : (aiSeen env ai).state = AIState.PATROL := by
      rw [aiSeen_state, hst]
    have hnd := aiDetect_noop env (aiSeen env ai) hseen hnot
      (by rw [aiSeen_role, hrole]; decide)
    rw [hcomb, hnd]
    dsimp only
    rw [aiDispatch_patrol range env _ _ hseen]
    exact ⟨hseen, rfl⟩
  · have hseen : (aiSeen env ai).state = AIState.PATROL := by
      rw [aiSeen_state, hst]
    have hdet := aiDetect_to_chase env (aiSeen env ai) hseen
      (Or.inr (by rw [aiSeen_role]; exact hrole))
    rw [hcomb, hdet]
    dsimp only
    obtain ⟨hs, hmono⟩ := aiDispatch_chase range env
      { aiSeen env ai with state := AIState.CHASE }
      [(AIState.PATROL, AIState.CHASE)] rfl
    exact hmono _ (List.mem_singleton.mpr rfl)

/-- Witness for C7: at distance 10 with LOS the guard performs
PATROL → CHASE; at distance 30 it stays in PATROL with no transition; the
PURSUER at distance 30 is still force-moved to CHASE. -/
theorem patrol_detection_transition_witness :
    ((AIState.PATROL, AIState.CHASE) ∈
        (enemyAITick 15 c7Env c7Guard true).transitions ∧
      (enemyAITick 15 c7Env c7Guard true).ai.state ≠ AIState.PATROL) ∧
    ((enemyAITick 15 c7EnvFar c7Guard true).ai.state = AIState.PATROL ∧
      (enemyAITick 15 c7EnvFar c7Guard true).transitions = []) ∧
    (AIState.PATROL, AIState.CHASE) ∈
      (enemyAITick 15 c7EnvFar c7Pursuer true).transitions :=
  ⟨(patrol_detection_transition 15 c7Env c7Guard).1 rfl rfl
      (by norm_num [c7Env, AI_DETECTION_RANGE]),
    (patrol_detection_transition 15 c7EnvFar c7Guard).2.1 rfl rfl
      (by norm_num [c7EnvFar, AI_DETECTION_RANGE]),
    (patrol_detection_transition 15 c7EnvFar c7Pursuer).2.2 rfl rfl⟩
